import Mathlib

/-!
Verification of the legislative-collaboration-network pipeline
(`SQL_dumper.py`): a shallow embedding of the data-preparation stages
(record cleaning, congress filter, policy joins, the two-pass
collaboration-graph builder, the active-set filter, per-legislator metric
aggregation and snapshot assembly) together with proofs of the documented
properties of those stages.

Member identifiers, bill numbers and all other textual data are `String`s,
as in the source.  Pair canonicalization uses Python's lexicographic string
order, embedded below as `strLt` (code-point comparison of the character
lists).  Missing CSV values (`NaN`/`NaT`) are `Option.none`.  Python's
`min`/`max` over a list that may mix date strings with `NaN` floats is
embedded as `pyMinDate`/`pyMaxDate`, which make the possible `TypeError`
explicit.
-/

/-! ## Lexicographic string order (Python's `<` on `str`) -/

/-- Code-point lexicographic strict order on character lists: the order
Python uses to compare strings, hence the order behind `sorted([a, b])`. -/
def charListLt : List Char → List Char → Bool
  | [], [] => false
  | [], _ :: _ => true
  | _ :: _, [] => false
  | a :: as, b :: bs => a < b || (a == b && charListLt as bs)

/-- Python's `a < b` on strings. -/
def strLt (a b : String) : Bool :=
  charListLt a.data b.data

theorem charListLt_irrefl (l : List Char) : charListLt l l = false := by
  induction l with
  | nil => rfl
  | cons a as ih => simp [charListLt, ih]

theorem charListLt_asymm {l₁ l₂ : List Char} (h₁ : charListLt l₁ l₂ = true)
    (h₂ : charListLt l₂ l₁ = true) : False := by
  induction l₁ generalizing l₂ with
  | nil => cases l₂ <;> simp [charListLt] at h₁ h₂
  | cons a as ih =>
    cases l₂ with
    | nil => simp [charListLt] at h₁
    | cons b bs =>
      simp [charListLt] at h₁ h₂
      rcases h₁ with hab | ⟨hab, hrec₁⟩
      · rcases h₂ with hba | ⟨hba, _⟩
        · exact absurd hba (not_lt.mpr (le_of_lt hab))
        · subst hba; exact absurd hab (lt_irrefl _)
      · rcases h₂ with hba | ⟨_, hrec₂⟩
        · subst hab; exact absurd hba (lt_irrefl _)
        · exact ih hrec₁ hrec₂

theorem charListLt_antisymm {l₁ l₂ : List Char} (h₁ : charListLt l₁ l₂ = false)
    (h₂ : charListLt l₂ l₁ = false) : l₁ = l₂ := by
  induction l₁ generalizing l₂ with
  | nil => cases l₂ <;> simp [charListLt] at h₁ h₂ ⊢
  | cons a as ih =>
    cases l₂ with
    | nil => simp [charListLt] at h₂
    | cons b bs =>
      simp [charListLt] at h₁ h₂
      have hab : a = b := le_antisymm h₂.1 h₁.1
      subst hab
      simp at h₁ h₂
      rw [ih h₁ h₂]

theorem strLt_irrefl (a : String) : strLt a a = false :=
  charListLt_irrefl a.data

theorem strLt_asymm {a b : String} (h₁ : strLt a b = true) (h₂ : strLt b a = true) :
    False :=
  charListLt_asymm h₁ h₂

theorem strLt_antisymm {a b : String} (h₁ : strLt a b = false) (h₂ : strLt b a = false) :
    a = b :=
  String.ext (charListLt_antisymm h₁ h₂)

/-! ## Raw input rows (the five tabular sources) -/

/-- A row of the bills source, after the date column has been parsed with
`pd.to_datetime(errors='coerce')`: an unparseable or missing date is `none`
(`NaT`), a parseable one is kept as its `YYYY-MM-DD` rendering. -/
structure BillRow where
  bill_number : String
  congress : Int
  title : String
  latest_action_date : Option String
  latest_action_text : String
  origin_chamber : String
deriving DecidableEq

/-- A row of the legislators source; `district` and `party` may be missing. -/
structure LegislatorRow where
  bioguide_id : String
  first_name : String
  last_name : String
  state : String
  district : Option Int
  party : Option String
deriving DecidableEq

/-- A row of the bill-sponsors source. -/
structure SponsorRow where
  bill_number : String
  bioguide_id : String
  sponsor_type : String
deriving DecidableEq

/-- A row of the bill-policies source. -/
structure PolicyRow where
  policy_id : String
  name : Option String
deriving DecidableEq

/-- A row of the bill-policy-links source. -/
structure PolicyLinkRow where
  bill_number : String
  policy_id : String
deriving DecidableEq

/-! ## Record loader and normalizer (`load_and_clean_data`) -/

/-- A legislator row after cleaning: `full_name` is first and last name
joined by one space, a missing district becomes the sentinel `-1`
(`fillna(-1).astype(int)`), a missing party becomes `"O"`. -/
structure CleanLegislator where
  bioguide_id : String
  first_name : String
  last_name : String
  state : String
  full_name : String
  district : Int
  party : String
deriving DecidableEq

def cleanLegislator (r : LegislatorRow) : CleanLegislator :=
  { bioguide_id := r.bioguide_id
    first_name := r.first_name
    last_name := r.last_name
    state := r.state
    full_name := r.first_name ++ " " ++ r.last_name
    district := r.district.getD (-1)
    party := r.party.getD "O" }

/-- Keep the bills whose congress is at least the target congress
(`bills_df[bills_df['congress'] >= target_congress]`). -/
def filterCongress (target_congress : Int) (bills : List BillRow) : List BillRow :=
  bills.filter (fun b => target_congress ≤ b.congress)

/-- Sort key of `sort_values('latest_action_date', ascending=False)`:
dates descending, missing dates (`NaT`) last. -/
def billBefore (a b : BillRow) : Bool :=
  match a.latest_action_date, b.latest_action_date with
  | some d₁, some d₂ => !strLt d₁ d₂
  | some _, none => true
  | none, some _ => false
  | none, none => true

def insertBill (b : BillRow) : List BillRow → List BillRow
  | [] => [b]
  | x :: xs => if billBefore b x then b :: x :: xs else x :: insertBill b xs

def sortBills : List BillRow → List BillRow
  | [] => []
  | b :: bs => insertBill b (sortBills bs)

/-- A bill row after the two left-joins: the policy id attached by the
bill-number join with the policy-links source (`none` when no link row
matched) and the policy name attached by the policy-id join with the
policies source (`none` when no policy row matched, or the policy row's
own name cell was missing). -/
structure MergedBillRow where
  bill_number : String
  congress : Int
  title : String
  latest_action_date : Option String
  latest_action_text : String
  origin_chamber : String
  policy_id : Option String
  policy_name : Option String
deriving DecidableEq

/-- The rows one bill contributes to the left merge with the policy-links
source: one row per matching link, or a single row with a null policy id
when no link matches. -/
def linkRowsFor (b : BillRow) (links : List PolicyLinkRow) :
    List (BillRow × Option String) :=
  match links.filter (fun l => l.bill_number == b.bill_number) with
  | [] => [(b, none)]
  | ms => ms.map (fun l => (b, some l.policy_id))

/-- Left merge of bills with the policy-links source on `bill_number`:
a bill with no matching link row is kept with a null `policy_id`,
a bill with several matching link rows fans out into several rows. -/
def mergeBillsPolicyLinks (bills : List BillRow) (links : List PolicyLinkRow) :
    List (BillRow × Option String) :=
  bills.flatMap (fun b => linkRowsFor b links)

/-- The enriched row built from one linked bill row and one policy name
cell. -/
def mergedRow (bp : BillRow × Option String) (nm : Option String) : MergedBillRow :=
  { bill_number := bp.1.bill_number
    congress := bp.1.congress
    title := bp.1.title
    latest_action_date := bp.1.latest_action_date
    latest_action_text := bp.1.latest_action_text
    origin_chamber := bp.1.origin_chamber
    policy_id := bp.2
    policy_name := nm }

/-- The policy-name join for one linked bill row with a real policy id:
no matching policy row keeps the row with a null `policy_name`, several
matching policy rows fan out. -/
def policyMatches (bp : BillRow × Option String) (pid : String)
    (policies : List PolicyRow) : List MergedBillRow :=
  match policies.filter (fun q => q.policy_id == pid) with
  | [] => [mergedRow bp none]
  | ms => ms.map (fun q => mergedRow bp q.name)

/-- The rows one linked bill row contributes to the left merge with the
policies source: a null policy id (pandas `NaN` key) matches nothing and
keeps the row with a null `policy_name`. -/
def policyRowsFor (bp : BillRow × Option String) (policies : List PolicyRow) :
    List MergedBillRow :=
  match bp.2 with
  | none => [mergedRow bp none]
  | some pid => policyMatches bp pid policies

/-- Left merge of the previous result with the policies source on
`policy_id`. -/
def mergePolicyNames (rows : List (BillRow × Option String)) (policies : List PolicyRow) :
    List MergedBillRow :=
  rows.flatMap (fun bp => policyRowsFor bp policies)

/-- The bills table as `load_and_clean_data` leaves it: filtered to the
target congress, sorted by latest action date descending, then joined to
policy links and policy names. -/
def bills_with_policies (target_congress : Int) (bills : List BillRow)
    (links : List PolicyLinkRow) (policies : List PolicyRow) : List MergedBillRow :=
  mergePolicyNames (mergeBillsPolicyLinks (sortBills (filterCongress target_congress bills)) links) policies

/-- The loader stage: returns the enriched bills table, the cleaned
legislators table and the sponsorship table (passed through unchanged). -/
def load_and_clean_data (bills : List BillRow) (legislators : List LegislatorRow)
    (bill_sponsors : List SponsorRow) (policies : List PolicyRow)
    (policy_links : List PolicyLinkRow) (target_congress : Int) :
    List MergedBillRow × List CleanLegislator × List SponsorRow :=
  (bills_with_policies target_congress bills policy_links policies,
   legislators.map cleanLegislator,
   bill_sponsors)

/-! ## Entity projector (`create_legislator_nodes`, `process_bills`) -/

/-- The public legislator shape: the `-1` district sentinel is translated
back to `null` (`int(row['district']) if row['district'] != -1 else None`). -/
structure LegislatorNode where
  id : String
  name : String
  state : String
  district : Option Int
  party : String
  first_name : String
  last_name : String
deriving DecidableEq

def create_legislator_nodes (legislators : List CleanLegislator) : List LegislatorNode :=
  legislators.map (fun r =>
    { id := r.bioguide_id
      name := r.full_name
      state := r.state
      district := if r.district ≠ -1 then some r.district else none
      party := r.party
      first_name := r.first_name
      last_name := r.last_name })

/-- The public bill shape: a missing policy name serializes as
`"Uncategorized"`, a missing policy id as `null`. -/
structure BillRecord where
  bill_number : String
  congress : Int
  title : String
  latest_action_date : Option String
  latest_action_text : String
  origin_chamber : String
  policy_id : Option String
  policy_name : String
deriving DecidableEq

def process_bills (rows : List MergedBillRow) : List BillRecord :=
  rows.map (fun r =>
    { bill_number := r.bill_number
      congress := r.congress
      title := r.title
      latest_action_date := r.latest_action_date
      latest_action_text := r.latest_action_text
      origin_chamber := r.origin_chamber
      policy_id := r.policy_id
      policy_name := r.policy_name.getD "Uncategorized" })

/-! ## Collaboration graph builder (`process_collaborations`) -/

/-- The bill metadata kept in the `bill_info` lookup. -/
structure BillInfo where
  congress : Int
  title : String
  latest_action_text : String
  latest_action_date : Option String
deriving DecidableEq

/-- The `bill_info` dict: one entry per bill number; building it by
iterating the rows means the last row with a given bill number wins. -/
def bill_info (billRows : List MergedBillRow) (bn : String) : Option BillInfo :=
  ((billRows.filter (fun r => r.bill_number == bn)).getLast?).map
    (fun r =>
      { congress := r.congress
        title := r.title
        latest_action_text := r.latest_action_text
        latest_action_date := r.latest_action_date })

/-- The key set of `bill_info` (`valid_bills`): the distinct bill numbers
of the enriched bills table. -/
def validBills (billRows : List MergedBillRow) : List String :=
  (billRows.map (fun r => r.bill_number)).dedup

/-- The `primary_sponsors` dict, bill number to sponsor id, built from the
rows with `sponsor_type == 'Primary'`; for duplicate bill numbers the last
row wins, as in a dict built from an indexed column. -/
def primary_sponsors (sponsors : List SponsorRow) (bn : String) : Option String :=
  ((sponsors.filter (fun r => r.sponsor_type == "Primary" && r.bill_number == bn)).getLast?).map
    (fun r => r.bioguide_id)

/-- Python's `tuple(sorted([a, b]))`: the canonical, direction-independent
representation of a pair of member ids. -/
def sortPair (a b : String) : String × String :=
  if strLt b a then (b, a) else (a, b)

/-- The cosponsor ids of one bill, in row order and with multiplicity
(`df[(df['bill_number'] == bn) & (df['sponsor_type'] == 'Cosponsor')]`). -/
def cosponsorsOf (sponsors : List SponsorRow) (bn : String) : List String :=
  (sponsors.filter (fun r => r.bill_number == bn && r.sponsor_type == "Cosponsor")).map
    (fun r => r.bioguide_id)

/-- Contribution of one sponsorship row to the first pass of the graph
builder: a cosponsor row whose bill is in `valid_bills` and has a primary
sponsor yields one occurrence of the canonical (primary, cosponsor) pair,
tagged with its bill number; any other row yields nothing. -/
def occRow (sponsors : List SponsorRow) (billRows : List MergedBillRow) (r : SponsorRow) :
    Option (String × String × String) :=
  if r.sponsor_type = "Cosponsor" ∧ r.bill_number ∈ validBills billRows then
    match primary_sponsors sponsors r.bill_number with
    | some p => some (r.bill_number, sortPair p r.bioguide_id)
    | none => none
  else none

/-- First pass of the graph builder: the occurrences of canonical pairs
over all sponsorship rows.  The source iterates the same rows grouped by
bill number and increments a counter once per row, so the per-pair totals
are those of this row list. -/
def collabOccurrences (sponsors : List SponsorRow) (billRows : List MergedBillRow) :
    List (String × String × String) :=
  sponsors.filterMap (occRow sponsors billRows)

/-- The global `collaboration_counts` of one canonical pair, over the whole
qualifying bill set. -/
def collaboration_counts (sponsors : List SponsorRow) (billRows : List MergedBillRow)
    (pair : String × String) : Nat :=
  (collabOccurrences sponsors billRows).countP (fun o => decide (o.2 = pair))

/-- The significance threshold, a hard-coded constant of the source
(`min_collaborations = 2` inside `process_collaborations`). -/
def min_collaborations : Nat := 2

/-- One emitted edge record. -/
structure Collaboration where
  source : String
  target : String
  bill_number : String
  congress : Int
  title : String
  latest_action : String
  action_date : Option String
  relationship : String
deriving DecidableEq

/-- Body of the second pass for one valid bill: skip it when it has no
primary sponsor, otherwise emit one record per cosponsor occurrence whose
canonical pair reached the threshold, carrying the bill's metadata from
the `bill_info` lookup. -/
def emitBill (minCollab : Nat) (sponsors : List SponsorRow) (billRows : List MergedBillRow)
    (bn : String) : List Collaboration :=
  match primary_sponsors sponsors bn with
  | none => []
  | some p =>
    match bill_info billRows bn with
    | none => []
    | some bd =>
      (cosponsorsOf sponsors bn).filterMap (fun c =>
        if minCollab ≤ collaboration_counts sponsors billRows (sortPair p c) then
          some { source := (sortPair p c).1
                 target := (sortPair p c).2
                 bill_number := bn
                 congress := bd.congress
                 title := bd.title
                 latest_action := bd.latest_action_text
                 action_date := bd.latest_action_date
                 relationship := "Primary-Cosponsor" }
        else none)

/-- Second pass of the graph builder: re-iterate the valid bills with the
hard-coded threshold `min_collaborations = 2`. -/
def process_collaborations (sponsors : List SponsorRow) (billRows : List MergedBillRow) :
    List Collaboration :=
  (validBills billRows).flatMap (emitBill min_collaborations sponsors billRows)

/-- Follows the spec's words on run parameters: the graph builder with the
minimum-collaboration threshold as a caller-supplied input instead of the
hard-coded constant. -/
def processCollaborationsConfigurable (minCollab : Nat) (sponsors : List SponsorRow)
    (billRows : List MergedBillRow) : List Collaboration :=
  (validBills billRows).flatMap (emitBill minCollab sponsors billRows)

/-! ## Metrics aggregator (`calculate_sponsor_stats`) -/

/-- The per-legislator stats record; `primary_count` and `cosponsor_count`
are zero-filled placeholders in the source as well. -/
structure SponsorStats where
  primary_count : Nat
  cosponsor_count : Nat
  total_collaborations : Nat
  party_collaborations : List (String × Nat)
deriving DecidableEq

def zeroStats : SponsorStats :=
  { primary_count := 0, cosponsor_count := 0, total_collaborations := 0
    party_collaborations := [] }

/-- `defaultdict(int)` increment of one party bucket. -/
def bump : List (String × Nat) → String → List (String × Nat)
  | [], k => [(k, 1)]
  | (k₁, v) :: rest, k =>
    if k₁ = k then (k₁, v + 1) :: rest else (k₁, v) :: bump rest k

/-- The `party_lookup` dict over the (already filtered) legislator list;
a dict comprehension lets the last row with a given id win, and a missing
id falls back to `"O"`. -/
def party_lookup (legislators : List LegislatorNode) (id : String) : String :=
  (((legislators.reverse).find? (fun l => l.id == id)).map (fun l => l.party)).getD "O"

/-- One increment of one endpoint's stats: bump `total_collaborations` and
the party bucket keyed by the other endpoint's party. -/
def addCollabStat (st : String → SponsorStats) (id : String) (pty : String) :
    String → SponsorStats :=
  fun x =>
    if x = id then
      { st id with
        total_collaborations := (st id).total_collaborations + 1
        party_collaborations := bump (st id).party_collaborations pty }
    else st x

/-- For each collaboration record, update the source's stats with the
target's party, then the target's stats with the source's party. -/
def calculate_sponsor_stats (legislators : List LegislatorNode)
    (collaborations : List Collaboration) : String → SponsorStats :=
  collaborations.foldl
    (fun st c =>
      addCollabStat (addCollabStat st c.source (party_lookup legislators c.target))
        c.target (party_lookup legislators c.source))
    (fun _ => zeroStats)

/-- Sum of the values of a party-bucket map. -/
def sumCounts (m : List (String × Nat)) : Nat :=
  (m.map (fun kv => kv.2)).sum

/-- Value of one key of a party-bucket map (`defaultdict(int)` read:
0 for an absent key). -/
def lookupCount (m : List (String × Nat)) (k : String) : Nat :=
  match m with
  | [] => 0
  | (k₁, v) :: rest => if k₁ = k then v else lookupCount rest k

/-! ## Snapshot assembly (`prepare_network_data`) -/

/-- Python's comparison `x < m` as `min` runs it over the projected date
column: two date strings compare lexicographically, two `NaN`s compare
`False`, and a date string against a `NaN` float raises `TypeError`
(`none` here). -/
def pyLtDate : Option String → Option String → Option Bool
  | some a, some b => some (strLt a b)
  | none, none => some false
  | _, _ => none

/-- Result of Python's `min`/`max` over the date column: a value (possibly
`NaN`), a `TypeError` from a mixed str/float comparison, or the
`ValueError` of an empty sequence. -/
inductive PyMinResult where
  | val : Option String → PyMinResult
  | typeError : PyMinResult
  | valueError : PyMinResult
deriving DecidableEq

def pyMinDateAux : Option String → List (Option String) → PyMinResult
  | m, [] => .val m
  | m, x :: xs =>
    match pyLtDate x m with
    | none => .typeError
    | some true => pyMinDateAux x xs
    | some false => pyMinDateAux m xs

/-- `min(b['latest_action_date'] for b in bills)` as Python executes it. -/
def pyMinDate : List (Option String) → PyMinResult
  | [] => .valueError
  | x :: xs => pyMinDateAux x xs

def pyMaxDateAux : Option String → List (Option String) → PyMinResult
  | m, [] => .val m
  | m, x :: xs =>
    match pyLtDate m x with
    | none => .typeError
    | some true => pyMaxDateAux x xs
    | some false => pyMaxDateAux m xs

/-- `max(b['latest_action_date'] for b in bills)` as Python executes it. -/
def pyMaxDate : List (Option String) → PyMinResult
  | [] => .valueError
  | x :: xs => pyMaxDateAux x xs

/-- The ids appearing as source or target of some collaboration record
(the `active_legislators` set, kept here with multiplicity; only
membership is ever used). -/
def active_legislators (collaborations : List Collaboration) : List String :=
  collaborations.flatMap (fun c => [c.source, c.target])

/-- The per-policy bill histogram: count the projected bills per policy
name, skipping `"Uncategorized"`. -/
def policy_counts (bills : List BillRecord) : List (String × Nat) :=
  bills.foldl
    (fun acc b => if b.policy_name ≠ "Uncategorized" then bump acc b.policy_name else acc)
    []

/-- The snapshot metadata fields the pipeline's invariants are about. -/
structure Metadata where
  date_range_start : PyMinResult
  date_range_end : PyMinResult
  policy_histogram : List (String × Nat)

/-- The assembled snapshot. -/
structure NetworkData where
  legislators : List LegislatorNode
  bills : List BillRecord
  collaborations : List Collaboration
  metrics : String → SponsorStats
  metadata : Metadata

/-- The whole pipeline: load and clean, project, build the graph, filter
the legislators to the active set, aggregate metrics and assemble the
snapshot. -/
def prepare_network_data (bills : List BillRow) (legislators : List LegislatorRow)
    (bill_sponsors : List SponsorRow) (policies : List PolicyRow)
    (policy_links : List PolicyLinkRow) (target_congress : Int) : NetworkData :=
  let billRows := bills_with_policies target_congress bills policy_links policies
  let all_legislators := create_legislator_nodes (legislators.map cleanLegislator)
  let billRecords := process_bills billRows
  let collaborations := process_collaborations bill_sponsors billRows
  let legNodes := all_legislators.filter
    (fun l => l.id ∈ active_legislators collaborations)
  { legislators := legNodes
    bills := billRecords
    collaborations := collaborations
    metrics := calculate_sponsor_stats legNodes collaborations
    metadata :=
      { date_range_start := pyMinDate (billRecords.map (fun b => b.latest_action_date))
        date_range_end := pyMaxDate (billRecords.map (fun b => b.latest_action_date))
        policy_histogram := policy_counts billRecords } }

/-! ## Concrete inputs used by witnesses and counterexamples -/

def exBillA : BillRow :=
  { bill_number := "B1", congress := 117, title := "T1"
    latest_action_date := some "2023-01-02", latest_action_text := "Act1"
    origin_chamber := "House" }

def exBillB : BillRow :=
  { bill_number := "B2", congress := 117, title := "T2"
    latest_action_date := some "2023-01-03", latest_action_text := "Act2"
    origin_chamber := "House" }

/-- A qualifying bill whose latest action date failed to parse. -/
def exBillN1 : BillRow :=
  { bill_number := "B1", congress := 117, title := "T1"
    latest_action_date := none, latest_action_text := "Act1"
    origin_chamber := "House" }

/-- A second qualifying bill with a missing latest action date. -/
def exBillN2 : BillRow :=
  { bill_number := "B2", congress := 117, title := "T2"
    latest_action_date := none, latest_action_text := "Act2"
    origin_chamber := "House" }

def exLegA : LegislatorRow :=
  { bioguide_id := "A", first_name := "Ann", last_name := "Ash"
    state := "CA", district := some 1, party := some "D" }

def exLegB : LegislatorRow :=
  { bioguide_id := "B", first_name := "Bob", last_name := "Beam"
    state := "TX", district := some 2, party := some "R" }

/-- Sponsorships of the spec's end-to-end example: pair (A, B) collaborates
on both B1 and B2. -/
def exSponsorsTwo : List SponsorRow :=
  [{ bill_number := "B1", bioguide_id := "A", sponsor_type := "Primary" },
   { bill_number := "B1", bioguide_id := "B", sponsor_type := "Cosponsor" },
   { bill_number := "B2", bioguide_id := "A", sponsor_type := "Primary" },
   { bill_number := "B2", bioguide_id := "B", sponsor_type := "Cosponsor" }]

def exMergedTwo : List MergedBillRow :=
  bills_with_policies 117 [exBillA, exBillB] [] []

/-- Sponsorships of the spec's negative example: pair (A, B) collaborates
on B1 only, global count 1. -/
def exSponsorsOne : List SponsorRow :=
  [{ bill_number := "B1", bioguide_id := "A", sponsor_type := "Primary" },
   { bill_number := "B1", bioguide_id := "B", sponsor_type := "Cosponsor" }]

def exMergedOne : List MergedBillRow :=
  bills_with_policies 117 [exBillA] [] []

/-- The same cosponsor row duplicated on one bill. -/
def exSponsorsDup : List SponsorRow :=
  [{ bill_number := "B1", bioguide_id := "A", sponsor_type := "Primary" },
   { bill_number := "B1", bioguide_id := "B", sponsor_type := "Cosponsor" },
   { bill_number := "B1", bioguide_id := "B", sponsor_type := "Cosponsor" }]

/-- A primary sponsor who also cosponsors their own two bills. -/
def exSelfSponsors : List SponsorRow :=
  [{ bill_number := "B1", bioguide_id := "A", sponsor_type := "Primary" },
   { bill_number := "B1", bioguide_id := "A", sponsor_type := "Cosponsor" },
   { bill_number := "B2", bioguide_id := "A", sponsor_type := "Primary" },
   { bill_number := "B2", bioguide_id := "A", sponsor_type := "Cosponsor" }]

def exSelfSnapshot : NetworkData :=
  prepare_network_data [exBillA, exBillB] [exLegA] exSelfSponsors [] [] 117

/-- Sponsorships naming a cosponsor id "Z" that has no row in the
legislators source. -/
def exUnknownSponsors : List SponsorRow :=
  [{ bill_number := "B1", bioguide_id := "A", sponsor_type := "Primary" },
   { bill_number := "B1", bioguide_id := "Z", sponsor_type := "Cosponsor" },
   { bill_number := "B2", bioguide_id := "A", sponsor_type := "Primary" },
   { bill_number := "B2", bioguide_id := "Z", sponsor_type := "Cosponsor" }]

def exUnknownSnapshot : NetworkData :=
  prepare_network_data [exBillA, exBillB] [exLegA] exUnknownSponsors [] [] 117

/-- A legislator row with raw district 0 (neither missing nor the -1
sentinel, and not positive). -/
def exLegD0 : LegislatorRow :=
  { bioguide_id := "C", first_name := "Cal", last_name := "Cole"
    state := "AK", district := some 0, party := some "I" }

/-- A legislator row with a missing district. -/
def exLegDNone : LegislatorRow :=
  { bioguide_id := "D", first_name := "Dee", last_name := "Dart"
    state := "WY", district := none, party := none }

/-- A legislator row with raw district 5. -/
def exLegD5 : LegislatorRow :=
  { bioguide_id := "E", first_name := "Eve", last_name := "Erb"
    state := "OR", district := some 5, party := some "D" }

/-! ## C7: district sentinel mapping -/

/-- C7 (amended): a legislator row whose raw district is missing or the
sentinel -1 projects to a null district, any other raw district value
projects to itself (an integer equal to the raw value, positive only when
the raw value is), and the sentinel -1 itself is never exposed. -/
theorem C7_district_sentinel (r : LegislatorRow) :
    ((r.district = none ∨ r.district = some (-1)) →
      (create_legislator_nodes [cleanLegislator r]).map (fun n => n.district) = [none])
    ∧ (∀ v : Int, r.district = some v → v ≠ -1 →
      (create_legislator_nodes [cleanLegislator r]).map (fun n => n.district) = [some v])
    ∧ (∀ n ∈ create_legislator_nodes [cleanLegislator r], n.district ≠ some (-1)) := by
  refine ⟨?_, ?_, ?_⟩
  · rintro (h | h) <;> simp [create_legislator_nodes, cleanLegislator, h]
  · intro v hv hne
    simp [create_legislator_nodes, cleanLegislator, hv, hne]
  · intro n hn
    simp only [create_legislator_nodes, List.map_cons, List.map_nil, List.mem_cons,
      List.not_mem_nil, or_false] at hn
    subst hn
    simp only [cleanLegislator]
    split <;> simp_all

/-- C7, counterexample to the claim as stated: raw district 0 is neither
missing nor -1, yet the projected district is 0, which is not positive. -/
theorem C7_counterexample :
    (∃ n ∈ create_legislator_nodes [cleanLegislator exLegD0], n.district = some 0)
    ∧ ¬ (0 : Int) > 0 := by decide

/-! ## C9: run parameters -/

/-- C9 (amended): the target congress is a caller-supplied parameter and
bill filtering uses it, while the minimum-collaboration threshold is the
hard-coded constant 2: the emitted graph always equals the parameterized
algorithm instantiated at threshold 2, whatever threshold a caller wants. -/
theorem C9_run_parameters :
    (∀ (target_congress : Int) (bills : List BillRow) (b : BillRow),
        b ∈ filterCongress target_congress bills ↔ b ∈ bills ∧ target_congress ≤ b.congress)
    ∧ (∀ (sponsors : List SponsorRow) (billRows : List MergedBillRow),
        process_collaborations sponsors billRows
          = processCollaborationsConfigurable min_collaborations sponsors billRows)
    ∧ min_collaborations = 2 := by
  refine ⟨?_, ?_, rfl⟩
  · intro tc bills b
    simp [filterCongress]
  · intro sponsors billRows
    rfl

/-- C9, counterexample to the claim as stated: with a caller-supplied
threshold of 3 the pair (A, B), of global count 2, would produce no
records, but the pipeline emits records for it regardless, because the
threshold inside `process_collaborations` is the literal 2. -/
theorem C9_counterexample :
    processCollaborationsConfigurable 3 exSponsorsTwo exMergedTwo = []
    ∧ process_collaborations exSponsorsTwo exMergedTwo ≠ [] := by decide

/-! ## C5: self-pairs -/

/-- C5: what the code does on a primary sponsor who cosponsors their own
two bills: the self-pair (A, A) is counted toward the global threshold and
two Collaboration records with equal source and target are emitted. -/
theorem C5_self_pair_behavior :
    collaboration_counts exSelfSponsors exMergedTwo ("A", "A") = 2
    ∧ (process_collaborations exSelfSponsors exMergedTwo).map
        (fun c => (c.source, c.target, c.bill_number))
        = [("A", "A", "B2"), ("A", "A", "B1")]
    ∧ ∃ c ∈ process_collaborations exSelfSponsors exMergedTwo, c.source = c.target := by
  decide

/-! ## C6: snapshot date range -/

/-- C6: what the code does about missing latest-action dates: with every
date missing the run does not fail but silently produces a NaN date range,
and with one real date and one missing date the run dies with a TypeError
from comparing a string with NaN, instead of excluding the missing date. -/
theorem C6_date_range_behavior :
    (prepare_network_data [exBillN1, exBillN2] [] [] [] [] 117).metadata.date_range_start
        = PyMinResult.val none
    ∧ (prepare_network_data [exBillN1, exBillN2] [] [] [] [] 117).metadata.date_range_end
        = PyMinResult.val none
    ∧ (prepare_network_data [exBillA, exBillN2] [] [] [] [] 117).metadata.date_range_start
        = PyMinResult.typeError
    ∧ (prepare_network_data [exBillA, exBillB] [] [] [] [] 117).metadata.date_range_start
        = PyMinResult.val (some "2023-01-02") := by decide

/-! ## C3: active-set closure counterexample -/

/-- C3, counterexample to the claim as stated: the pipeline emits
collaboration records naming the cosponsor id "Z", which has no row in the
legislators source, so "Z" appears in the collaboration list but in no
entry of the snapshot's legislator list. -/
theorem C3_counterexample :
    ∃ c ∈ exUnknownSnapshot.collaborations,
      ∀ l ∈ exUnknownSnapshot.legislators, l.id ≠ c.target := by decide

/-! ## C4: metric consistency counterexample -/

/-- C4, counterexample to the claim as stated: on the self-pair snapshot
the one active legislator appears in 2 collaboration records but its
`total_collaborations` is 4, because each self-record increments the same
legislator twice. -/
theorem C4_counterexample :
    ∃ l ∈ exSelfSnapshot.legislators,
      (exSelfSnapshot.metrics l.id).total_collaborations
        ≠ exSelfSnapshot.collaborations.countP
            (fun c => decide (c.source = l.id ∨ c.target = l.id)) := by decide

/-! ## Canonical pair lemmas -/

theorem sortPair_of_not_lt {a b : String} (h : strLt b a = false) :
    sortPair a b = (a, b) := by
  simp [sortPair, h]

theorem sortPair_comm (a b : String) : sortPair a b = sortPair b a := by
  unfold sortPair
  cases h₁ : strLt b a <;> cases h₂ : strLt a b
  · have hab : a = b := strLt_antisymm h₂ h₁
    simp [hab]
  · simp
  · simp
  · exact (strLt_asymm h₂ h₁).elim

theorem sortPair_not_lt (a b : String) :
    strLt (sortPair a b).2 (sortPair a b).1 = false := by
  unfold sortPair
  cases h : strLt b a
  · simpa using h
  · cases h₂ : strLt a b
    · simpa using h₂
    · exact (strLt_asymm h₂ h).elim

theorem sortPair_snd_inj {p c₁ c₂ : String} (h : sortPair p c₁ = sortPair p c₂) :
    c₁ = c₂ := by
  unfold sortPair at h
  cases h₁ : strLt c₁ p <;> cases h₂ : strLt c₂ p <;> rw [h₁, h₂] at h <;> simp at h
  all_goals first
    | exact h
    | exact h.1.trans h.2
    | exact h.2.trans h.1

/-! ## Decomposition of the graph builder -/

theorem occRow_eq_some {sponsors : List SponsorRow} {billRows : List MergedBillRow}
    {r : SponsorRow} {o : String × String × String}
    (h : occRow sponsors billRows r = some o) :
    r.sponsor_type = "Cosponsor" ∧ r.bill_number ∈ validBills billRows
      ∧ ∃ p, primary_sponsors sponsors r.bill_number = some p
          ∧ o = (r.bill_number, sortPair p r.bioguide_id) := by
  unfold occRow at h
  split at h
  · rename_i hcond
    cases hp : primary_sponsors sponsors r.bill_number with
    | none => rw [hp] at h; cases h
    | some p =>
      rw [hp] at h
      exact ⟨hcond.1, hcond.2, p, rfl, (Option.some_inj.mp h).symm⟩
  · cases h

theorem mem_emitBill {minCollab : Nat} {sponsors : List SponsorRow}
    {billRows : List MergedBillRow} {bn : String} {c : Collaboration}
    (h : c ∈ emitBill minCollab sponsors billRows bn) :
    ∃ p bd co, primary_sponsors sponsors bn = some p
      ∧ bill_info billRows bn = some bd
      ∧ co ∈ cosponsorsOf sponsors bn
      ∧ minCollab ≤ collaboration_counts sponsors billRows (sortPair p co)
      ∧ c = { source := (sortPair p co).1
              target := (sortPair p co).2
              bill_number := bn
              congress := bd.congress
              title := bd.title
              latest_action := bd.latest_action_text
              action_date := bd.latest_action_date
              relationship := "Primary-Cosponsor" } := by
  unfold emitBill at h
  cases hp : primary_sponsors sponsors bn with
  | none => rw [hp] at h; cases h
  | some p =>
    rw [hp] at h
    cases hbi : bill_info billRows bn with
    | none => rw [hbi] at h; cases h
    | some bd =>
      rw [hbi] at h
      rw [List.mem_filterMap] at h
      obtain ⟨co, hco, hemit⟩ := h
      by_cases hsig : minCollab ≤ collaboration_counts sponsors billRows (sortPair p co)
      · rw [if_pos hsig] at hemit
        exact ⟨p, bd, co, rfl, rfl, hco, hsig, (Option.some_inj.mp hemit).symm⟩
      · rw [if_neg hsig] at hemit
        cases hemit

theorem mem_process_collaborations {sponsors : List SponsorRow}
    {billRows : List MergedBillRow} {c : Collaboration}
    (h : c ∈ process_collaborations sponsors billRows) :
    ∃ bn p bd co, bn ∈ validBills billRows
      ∧ primary_sponsors sponsors bn = some p
      ∧ bill_info billRows bn = some bd
      ∧ co ∈ cosponsorsOf sponsors bn
      ∧ min_collaborations ≤ collaboration_counts sponsors billRows (sortPair p co)
      ∧ c = { source := (sortPair p co).1
              target := (sortPair p co).2
              bill_number := bn
              congress := bd.congress
              title := bd.title
              latest_action := bd.latest_action_text
              action_date := bd.latest_action_date
              relationship := "Primary-Cosponsor" } := by
  unfold process_collaborations at h
  rw [List.mem_flatMap] at h
  obtain ⟨bn, hbn, hmem⟩ := h
  obtain ⟨p, bd, co, hp, hbi, hco, hsig, hc⟩ := mem_emitBill hmem
  exact ⟨bn, p, bd, co, hbn, hp, hbi, hco, hsig, hc⟩

/-! ## C2: canonicalization -/

/-- C2: the canonical pair key is orientation-independent, every emitted
record stores the pair in canonical (sorted) order with source not greater
than target, and no unordered pair can occur in both orientations as
distinct entries: records related by swapped endpoints have equal
endpoints. -/
theorem C2_canonicalization (sponsors : List SponsorRow) (billRows : List MergedBillRow) :
    (∀ a b : String, sortPair a b = sortPair b a)
    ∧ (∀ c ∈ process_collaborations sponsors billRows,
        strLt c.target c.source = false
        ∧ (c.source, c.target) = sortPair c.source c.target)
    ∧ (∀ c₁ ∈ process_collaborations sponsors billRows,
        ∀ c₂ ∈ process_collaborations sponsors billRows,
        c₁.source = c₂.target → c₁.target = c₂.source → c₁.source = c₁.target) := by
  have key : ∀ c ∈ process_collaborations sponsors billRows,
      strLt c.target c.source = false := by
    intro c hc
    obtain ⟨bn, p, bd, co, _, _, _, _, _, hc⟩ := mem_process_collaborations hc
    subst hc
    exact sortPair_not_lt p co
  refine ⟨sortPair_comm, ?_, ?_⟩
  · intro c hc
    exact ⟨key c hc, (sortPair_of_not_lt (key c hc)).symm⟩
  · intro c₁ h₁ c₂ h₂ hst hts
    have k₁ := key c₁ h₁
    have k₂ := key c₂ h₂
    rw [← hst, ← hts] at k₂
    exact strLt_antisymm k₂ k₁

/-! ## Counting lemmas for the two-pass threshold argument -/

theorem sum_map_add {α : Type} (l : List α) (f g : α → Nat) :
    (l.map (fun x => f x + g x)).sum = (l.map f).sum + (l.map g).sum := by
  induction l with
  | nil => rfl
  | cons a l ih =>
    simp only [List.map_cons, List.sum_cons, ih]
    omega

theorem sum_map_ite_eq {α : Type} [DecidableEq α] (V : List α) (x : α) (c : Nat)
    (hnd : V.Nodup) (hx : x ∈ V) :
    (V.map (fun y => if x = y then c else 0)).sum = c := by
  induction V with
  | nil => cases hx
  | cons v V ih =>
    rw [List.nodup_cons] at hnd
    rw [List.map_cons, List.sum_cons]
    by_cases hxv : x = v
    · subst hxv
      rw [if_pos rfl]
      have hrest : (V.map (fun y => if x = y then c else 0)).sum = 0 := by
        apply List.sum_eq_zero
        intro n hn
        rw [List.mem_map] at hn
        obtain ⟨y, hy, hval⟩ := hn
        have hxy : x ≠ y := by
          intro h
          apply hnd.1
          rw [h]
          exact hy
        rw [if_neg hxy] at hval
        exact hval.symm
      omega
    · have hxV : x ∈ V := by
        rcases List.mem_cons.mp hx with h | h
        · exact absurd h hxv
        · exact h
      rw [if_neg hxv, ih hnd.2 hxV]
      omega

theorem countP_eq_sum_over_keys {α β : Type} [DecidableEq α] (L : List (α × β))
    (V : List α) (q : α × β → Bool) (hnd : V.Nodup) (hall : ∀ o ∈ L, o.1 ∈ V) :
    L.countP q
      = (V.map (fun bn => L.countP (fun o => decide (o.1 = bn) && q o))).sum := by
  induction L with
  | nil =>
    symm
    apply List.sum_eq_zero
    intro x hx
    rw [List.mem_map] at hx
    obtain ⟨bn, _, h⟩ := hx
    simpa using h.symm
  | cons o L ih =>
    have ho : o.1 ∈ V := hall o (List.mem_cons_self o L)
    have ih2 := ih (fun x hx => hall x (List.mem_cons_of_mem o hx))
    rw [List.countP_cons, ih2]
    have hmap : V.map (fun bn => (o :: L).countP (fun x => decide (x.1 = bn) && q x))
        = V.map (fun bn => L.countP (fun x => decide (x.1 = bn) && q x)
            + if (decide (o.1 = bn) && q o) = true then 1 else 0) := by
      apply List.map_congr_left
      intro bn _
      rw [List.countP_cons]
    rw [hmap, sum_map_add]
    congr 1
    by_cases hq : q o = true
    · have heq : V.map (fun bn => if (decide (o.1 = bn) && q o) = true then 1 else 0)
          = V.map (fun bn => if o.1 = bn then 1 else 0) :=
        List.map_congr_left (fun bn _ => by simp [hq])
      rw [heq, sum_map_ite_eq V o.1 1 hnd ho, if_pos hq]
    · have hqf : q o = false := by
        revert hq
        cases q o <;> simp
      have heq : V.map (fun bn => if (decide (o.1 = bn) && q o) = true then 1 else 0)
          = V.map (fun _ => 0) :=
        List.map_congr_left (fun bn _ => by simp [hqf])
      rw [heq, if_neg hq]
      simp

theorem occ_mem_valid {sponsors : List SponsorRow} {billRows : List MergedBillRow}
    {o : String × String × String} (h : o ∈ collabOccurrences sponsors billRows) :
    o.1 ∈ validBills billRows := by
  unfold collabOccurrences at h
  rw [List.mem_filterMap] at h
  obtain ⟨r, _, hr⟩ := h
  obtain ⟨_, hv, p, _, ho⟩ := occRow_eq_some hr
  subst ho
  exact hv

theorem bill_info_isSome {billRows : List MergedBillRow} {bn : String}
    (h : bn ∈ validBills billRows) : ∃ bd, bill_info billRows bn = some bd := by
  unfold validBills at h
  rw [List.mem_dedup, List.mem_map] at h
  obtain ⟨r, hr, hbn⟩ := h
  unfold bill_info
  cases hl : (billRows.filter (fun x => x.bill_number == bn)).getLast? with
  | some r₀ => exact ⟨_, rfl⟩
  | none =>
    rw [List.getLast?_eq_none_iff] at hl
    have hmem : r ∈ billRows.filter (fun x => x.bill_number == bn) :=
      List.mem_filter.mpr ⟨hr, by simp [hbn]⟩
    rw [hl] at hmem
    cases hmem

theorem occ_countP_bill (sponsors : List SponsorRow) (billRows : List MergedBillRow)
    (L : List SponsorRow) (bn p : String) (P : String × String)
    (hv : bn ∈ validBills billRows) (hp : primary_sponsors sponsors bn = some p) :
    (L.filterMap (occRow sponsors billRows)).countP
        (fun o => decide (o.1 = bn) && decide (o.2 = P))
      = ((L.filter (fun r => r.bill_number == bn && r.sponsor_type == "Cosponsor")).map
          (fun r => r.bioguide_id)).countP (fun c => decide (sortPair p c = P)) := by
  induction L with
  | nil => rfl
  | cons r L ih =>
    rw [List.filterMap_cons]
    by_cases hbn : r.bill_number = bn
    · by_cases hcos : r.sponsor_type = "Cosponsor"
      · have hocc : occRow sponsors billRows r = some (bn, sortPair p r.bioguide_id) := by
          simp [occRow, hbn, hcos, hv, hp]
        rw [hocc, List.countP_cons, ih, List.filter_cons]
        simp [hbn, hcos, List.countP_cons]
      · have hocc : occRow sponsors billRows r = none := by
          simp [occRow, hcos]
        rw [hocc, ih, List.filter_cons]
        simp [hcos]
    · cases hocc : occRow sponsors billRows r with
      | none =>
        rw [ih, List.filter_cons]
        simp [hbn]
      | some o =>
        have ho1 : o.1 = r.bill_number := by
          obtain ⟨_, _, p₀, _, ho⟩ := occRow_eq_some hocc
          rw [ho]
        rw [List.countP_cons, ih, List.filter_cons]
        simp [ho1, hbn]

theorem occ_countP_bill_no_primary (sponsors : List SponsorRow)
    (billRows : List MergedBillRow) (bn : String) (q : String × String → Bool)
    (hp : primary_sponsors sponsors bn = none) :
    (collabOccurrences sponsors billRows).countP
        (fun o => decide (o.1 = bn) && q o.2) = 0 := by
  rw [List.countP_eq_zero]
  intro o ho
  unfold collabOccurrences at ho
  rw [List.mem_filterMap] at ho
  obtain ⟨r, _, hr⟩ := ho
  obtain ⟨_, _, p, hpp, hoo⟩ := occRow_eq_some hr
  subst hoo
  simp only [Bool.and_eq_true, decide_eq_true_eq, not_and]
  intro h1 _
  rw [h1, hp] at hpp
  cases hpp

theorem emitBill_eq_filterMap (minCollab : Nat) (sponsors : List SponsorRow)
    (billRows : List MergedBillRow) (bn p : String) (bd : BillInfo)
    (hp : primary_sponsors sponsors bn = some p)
    (hbi : bill_info billRows bn = some bd) :
    emitBill minCollab sponsors billRows bn
      = (cosponsorsOf sponsors bn).filterMap (fun c =>
          if minCollab ≤ collaboration_counts sponsors billRows (sortPair p c) then
            some { source := (sortPair p c).1
                   target := (sortPair p c).2
                   bill_number := bn
                   congress := bd.congress
                   title := bd.title
                   latest_action := bd.latest_action_text
                   action_date := bd.latest_action_date
                   relationship := "Primary-Cosponsor" }
          else none) := by
  unfold emitBill
  rw [hp, hbi]

theorem emitBill_countP_pair (sponsors : List SponsorRow) (billRows : List MergedBillRow)
    (bn p : String) (bd : BillInfo) (P : String × String)
    (hp : primary_sponsors sponsors bn = some p)
    (hbi : bill_info billRows bn = some bd)
    (hsig : min_collaborations ≤ collaboration_counts sponsors billRows P) :
    (emitBill min_collaborations sponsors billRows bn).countP
        (fun c => decide ((c.source, c.target) = P))
      = (cosponsorsOf sponsors bn).countP (fun co => decide (sortPair p co = P)) := by
  rw [emitBill_eq_filterMap min_collaborations sponsors billRows bn p bd hp hbi]
  generalize cosponsorsOf sponsors bn = cos
  induction cos with
  | nil => rfl
  | cons co cos ih =>
    rw [List.filterMap_cons]
    by_cases hP : sortPair p co = P
    · rw [hP, if_pos hsig, List.countP_cons, ih, List.countP_cons]
      simp [hP]
    · by_cases hsig₂ :
          min_collaborations ≤ collaboration_counts sponsors billRows (sortPair p co)
      · rw [if_pos hsig₂, List.countP_cons, ih, List.countP_cons]
      · rw [if_neg hsig₂, ih, List.countP_cons]
        simp [hP]

theorem emitBill_bill_eq {minCollab : Nat} {sponsors : List SponsorRow}
    {billRows : List MergedBillRow} {bn : String} {c : Collaboration}
    (h : c ∈ emitBill minCollab sponsors billRows bn) : c.bill_number = bn := by
  obtain ⟨p, bd, co, _, _, _, _, hc⟩ := mem_emitBill h
  rw [hc]

theorem emitBill_countP_other {minCollab : Nat} {sponsors : List SponsorRow}
    {billRows : List MergedBillRow} {bn bn₁ : String} (q : Collaboration → Bool)
    (hne : bn₁ ≠ bn) :
    (emitBill minCollab sponsors billRows bn₁).countP
        (fun c => decide (c.bill_number = bn) && q c) = 0 := by
  rw [List.countP_eq_zero]
  intro c hc
  have hb := emitBill_bill_eq hc
  simp [hb, hne]

theorem records_countP_pair_zero (sponsors : List SponsorRow)
    (billRows : List MergedBillRow) (P : String × String)
    (hc : collaboration_counts sponsors billRows P = 1) :
    (process_collaborations sponsors billRows).countP
        (fun c => decide ((c.source, c.target) = P)) = 0 := by
  rw [List.countP_eq_zero]
  intro c hcmem
  obtain ⟨bn, p, bd, co, _, _, _, _, hsig, hceq⟩ := mem_process_collaborations hcmem
  subst hceq
  simp only [decide_eq_true_eq]
  intro hpair
  rw [Prod.mk.eta] at hpair
  rw [hpair, hc] at hsig
  exact absurd hsig (by decide)

theorem records_countP_pair (sponsors : List SponsorRow)
    (billRows : List MergedBillRow) (P : String × String)
    (hsig : min_collaborations ≤ collaboration_counts sponsors billRows P) :
    (process_collaborations sponsors billRows).countP
        (fun c => decide ((c.source, c.target) = P))
      = collaboration_counts sponsors billRows P := by
  unfold process_collaborations
  rw [List.countP_flatMap]
  unfold collaboration_counts collabOccurrences
  rw [countP_eq_sum_over_keys (sponsors.filterMap (occRow sponsors billRows))
      (validBills billRows) (fun o => decide (o.2 = P)) (List.nodup_dedup _)
      (fun o ho => occ_mem_valid ho)]
  congr 1
  apply List.map_congr_left
  intro bn hbn
  simp only [Function.comp]
  cases hp : primary_sponsors sponsors bn with
  | none =>
    have hemit : emitBill min_collaborations sponsors billRows bn = [] := by
      unfold emitBill
      rw [hp]
    rw [hemit, List.countP_nil]
    exact (occ_countP_bill_no_primary sponsors billRows bn
      (fun pr => decide (pr = P)) hp).symm
  | some p =>
    obtain ⟨bd, hbi⟩ := bill_info_isSome hbn
    rw [emitBill_countP_pair sponsors billRows bn p bd P hp hbi hsig]
    exact (occ_countP_bill sponsors billRows sponsors bn p P hbn hp).symm

/-! ## C1: the global significance threshold -/

/-- C1: for any canonical pair, a global count of exactly 1 yields zero
Collaboration records for that pair; a global count of at least 2 yields
exactly as many records for that pair as it has qualifying
(bill, cosponsor) occurrences — which is that same global count, evaluated
once over the whole qualifying bill set — and every emitted record carries
the metadata of its bill from the `bill_info` lookup. -/
theorem C1_threshold (sponsors : List SponsorRow) (billRows : List MergedBillRow)
    (pair : String × String) :
    (collaboration_counts sponsors billRows pair = 1 →
      (process_collaborations sponsors billRows).countP
        (fun c => decide ((c.source, c.target) = pair)) = 0)
    ∧ (2 ≤ collaboration_counts sponsors billRows pair →
      (process_collaborations sponsors billRows).countP
        (fun c => decide ((c.source, c.target) = pair))
        = collaboration_counts sponsors billRows pair)
    ∧ (∀ c ∈ process_collaborations sponsors billRows,
        bill_info billRows c.bill_number
          = some { congress := c.congress, title := c.title
                   latest_action_text := c.latest_action
                   latest_action_date := c.action_date }) := by
  refine ⟨records_countP_pair_zero sponsors billRows pair,
    records_countP_pair sponsors billRows pair, ?_⟩
  intro c hc
  obtain ⟨bn, p, bd, co, _, _, hbi, _, _, hceq⟩ := mem_process_collaborations hc
  subst hceq
  exact hbi

/-- C1 at the spec's two examples: the negative example (count 1, zero
records) and the end-to-end example (count 2, two records). -/
theorem C1_witness :
    (process_collaborations exSponsorsOne exMergedOne).countP
        (fun c => decide ((c.source, c.target) = ("A", "B"))) = 0
    ∧ (process_collaborations exSponsorsTwo exMergedTwo).countP
        (fun c => decide ((c.source, c.target) = ("A", "B")))
        = collaboration_counts exSponsorsTwo exMergedTwo ("A", "B") :=
  ⟨(C1_threshold exSponsorsOne exMergedOne ("A", "B")).1 (by decide),
   (C1_threshold exSponsorsTwo exMergedTwo ("A", "B")).2.1 (by decide)⟩

/-! ## C10: duplicate cosponsor rows count with multiplicity -/

theorem cosponsor_rows_countP (sponsors : List SponsorRow) (bn p co : String) :
    (cosponsorsOf sponsors bn).countP (fun c => decide (sortPair p c = sortPair p co))
      = sponsors.countP (fun r => decide (r.bill_number = bn)
          && (decide (r.sponsor_type = "Cosponsor") && decide (r.bioguide_id = co))) := by
  unfold cosponsorsOf
  rw [List.countP_map, List.countP_filter]
  apply List.countP_congr
  intro r _
  simp only [Function.comp, Bool.and_eq_true, decide_eq_true_eq, beq_iff_eq]
  constructor
  · rintro ⟨hpair, hbill, hcos⟩
    exact ⟨hbill, hcos, sortPair_snd_inj hpair⟩
  · rintro ⟨hbill, hcos, hco⟩
    exact ⟨by rw [hco], hbill, hcos⟩

/-- C10: duplicate cosponsor rows are counted with multiplicity, with no
per-bill deduplication anywhere: for a valid bill with a primary sponsor
and a significant pair, the number of emitted records for that (pair,
bill) and the bill's contribution to the pair's global count both equal
the exact number of matching cosponsor rows in the sponsorship input. -/
theorem C10_duplicate_multiplicity (sponsors : List SponsorRow)
    (billRows : List MergedBillRow) (bn p co : String)
    (hv : bn ∈ validBills billRows)
    (hp : primary_sponsors sponsors bn = some p)
    (hsig : 2 ≤ collaboration_counts sponsors billRows (sortPair p co)) :
    (process_collaborations sponsors billRows).countP
        (fun c => decide (c.bill_number = bn)
            && decide ((c.source, c.target) = sortPair p co))
      = sponsors.countP (fun r => decide (r.bill_number = bn)
          && (decide (r.sponsor_type = "Cosponsor") && decide (r.bioguide_id = co)))
    ∧ (collabOccurrences sponsors billRows).countP
          (fun o => decide (o.1 = bn) && decide (o.2 = sortPair p co))
        = sponsors.countP (fun r => decide (r.bill_number = bn)
            && (decide (r.sponsor_type = "Cosponsor") && decide (r.bioguide_id = co))) := by
  have hocc : (collabOccurrences sponsors billRows).countP
      (fun o => decide (o.1 = bn) && decide (o.2 = sortPair p co))
      = (cosponsorsOf sponsors bn).countP
          (fun c => decide (sortPair p c = sortPair p co)) :=
    occ_countP_bill sponsors billRows sponsors bn p (sortPair p co) hv hp
  refine ⟨?_, hocc.trans (cosponsor_rows_countP sponsors bn p co)⟩
  unfold process_collaborations
  rw [List.countP_flatMap]
  have hmap : (validBills billRows).map
      (List.countP (fun c => decide (c.bill_number = bn)
          && decide ((c.source, c.target) = sortPair p co))
        ∘ emitBill min_collaborations sponsors billRows)
      = (validBills billRows).map (fun bn₁ =>
          if bn = bn₁ then
            (cosponsorsOf sponsors bn).countP
              (fun c => decide (sortPair p c = sortPair p co))
          else 0) := by
    apply List.map_congr_left
    intro bn₁ _
    simp only [Function.comp]
    by_cases hbn₁ : bn = bn₁
    · subst hbn₁
      rw [if_pos rfl]
      have hdrop : (emitBill min_collaborations sponsors billRows bn).countP
          (fun c => decide (c.bill_number = bn)
              && decide ((c.source, c.target) = sortPair p co))
          = (emitBill min_collaborations sponsors billRows bn).countP
              (fun c => decide ((c.source, c.target) = sortPair p co)) := by
        apply List.countP_congr
        intro c hc
        have hb := emitBill_bill_eq hc
        simp [hb]
      obtain ⟨bd, hbi⟩ := bill_info_isSome hv
      rw [hdrop, emitBill_countP_pair sponsors billRows bn p bd (sortPair p co) hp hbi hsig]
    · rw [if_neg hbn₁]
      exact emitBill_countP_other
        (fun c => decide ((c.source, c.target) = sortPair p co))
        (fun h => hbn₁ h.symm)
  rw [hmap, sum_map_ite_eq (validBills billRows) bn _ (List.nodup_dedup _) hv]
  exact cosponsor_rows_countP sponsors bn p co

/-- C10 at a concrete input with the same cosponsor row twice on one bill:
both counts equal 2. -/
theorem C10_witness :
    (process_collaborations exSponsorsDup exMergedOne).countP
        (fun c => decide (c.bill_number = "B1")
            && decide ((c.source, c.target) = sortPair "A" "B"))
      = exSponsorsDup.countP (fun r => decide (r.bill_number = "B1")
          && (decide (r.sponsor_type = "Cosponsor") && decide (r.bioguide_id = "B"))) :=
  (C10_duplicate_multiplicity exSponsorsDup exMergedOne "B1" "A" "B"
    (by decide) (by decide) (by decide)).1

/-! ## C4: metric consistency -/

theorem bump_sum (m : List (String × Nat)) (k : String) :
    sumCounts (bump m k) = sumCounts m + 1 := by
  induction m with
  | nil => rfl
  | cons kv rest ih =>
    cases kv with
    | mk k₁ v =>
      unfold bump
      by_cases h : k₁ = k
      · rw [if_pos h]
        simp [sumCounts]
        omega
      · rw [if_neg h]
        simp only [sumCounts, List.map_cons, List.sum_cons] at ih ⊢
        omega

theorem addCollabStat_total (st : String → SponsorStats) (id pty x : String) :
    (addCollabStat st id pty x).total_collaborations
      = (st x).total_collaborations + (if x = id then 1 else 0) := by
  unfold addCollabStat
  by_cases h : x = id
  · rw [if_pos h, if_pos h, h]
  · rw [if_neg h, if_neg h]
    omega

theorem addCollabStat_sum (st : String → SponsorStats) (id pty x : String) :
    sumCounts (addCollabStat st id pty x).party_collaborations
      = sumCounts (st x).party_collaborations + (if x = id then 1 else 0) := by
  unfold addCollabStat
  by_cases h : x = id
  · rw [if_pos h, if_pos h, h]
    exact bump_sum _ _
  · rw [if_neg h, if_neg h]
    omega

theorem stats_foldl_total (legislators : List LegislatorNode)
    (collaborations : List Collaboration) (st : String → SponsorStats) (x : String) :
    ((collaborations.foldl
        (fun st c =>
          addCollabStat (addCollabStat st c.source (party_lookup legislators c.target))
            c.target (party_lookup legislators c.source)) st) x).total_collaborations
      = (st x).total_collaborations
        + collaborations.countP (fun c => decide (x = c.source))
        + collaborations.countP (fun c => decide (x = c.target)) := by
  induction collaborations generalizing st with
  | nil => simp
  | cons c cs ih =>
    rw [List.foldl_cons, ih, List.countP_cons, List.countP_cons,
      addCollabStat_total, addCollabStat_total]
    simp only [decide_eq_true_eq]
    omega

theorem stats_foldl_sum (legislators : List LegislatorNode)
    (collaborations : List Collaboration) (st : String → SponsorStats) (x : String) :
    sumCounts ((collaborations.foldl
        (fun st c =>
          addCollabStat (addCollabStat st c.source (party_lookup legislators c.target))
            c.target (party_lookup legislators c.source)) st) x).party_collaborations
      = sumCounts (st x).party_collaborations
        + collaborations.countP (fun c => decide (x = c.source))
        + collaborations.countP (fun c => decide (x = c.target)) := by
  induction collaborations generalizing st with
  | nil => simp
  | cons c cs ih =>
    rw [List.foldl_cons, ih, List.countP_cons, List.countP_cons,
      addCollabStat_sum, addCollabStat_sum]
    simp only [decide_eq_true_eq]
    omega

theorem countP_mention_split (collaborations : List Collaboration) (x : String)
    (h : ∀ c ∈ collaborations, c.source ≠ c.target) :
    collaborations.countP (fun c => decide (c.source = x ∨ c.target = x))
      = collaborations.countP (fun c => decide (x = c.source))
        + collaborations.countP (fun c => decide (x = c.target)) := by
  induction collaborations with
  | nil => rfl
  | cons c cs ih =>
    have hc := h c (List.mem_cons_self c cs)
    have ih₂ := ih (fun d hd => h d (List.mem_cons_of_mem c hd))
    rw [List.countP_cons, List.countP_cons, List.countP_cons, ih₂]
    simp only [decide_eq_true_eq]
    by_cases h₁ : c.source = x <;> by_cases h₂ : c.target = x
    · exact absurd (h₁.trans h₂.symm) hc
    · rw [if_pos (Or.inl h₁), if_pos h₁.symm, if_neg (fun hh => h₂ hh.symm)]
      omega
    · rw [if_pos (Or.inr h₂), if_neg (fun hh => h₁ hh.symm), if_pos h₂.symm]
      omega
    · rw [if_neg (fun hor => hor.elim h₁ h₂), if_neg (fun hh => h₁ hh.symm),
        if_neg (fun hh => h₂ hh.symm)]
      omega

theorem ite_and_one (a b : Prop) [Decidable a] [Decidable b] :
    (if a ∧ b then 1 else 0) = (if a then (if b then (1 : Nat) else 0) else 0) := by
  by_cases ha : a <;> by_cases hb : b <;> simp [ha, hb]

theorem bump_lookup_self (m : List (String × Nat)) (k : String) :
    lookupCount (bump m k) k = lookupCount m k + 1 := by
  induction m with
  | nil => simp [bump, lookupCount]
  | cons kv rest ih =>
    cases kv with
    | mk k₁ v =>
      unfold bump
      by_cases h : k₁ = k
      · rw [if_pos h]
        simp [lookupCount, h]
      · rw [if_neg h]
        simp [lookupCount, h, ih]

theorem bump_lookup_other (m : List (String × Nat)) {k k₂ : String} (hne : k ≠ k₂) :
    lookupCount (bump m k) k₂ = lookupCount m k₂ := by
  induction m with
  | nil => simp [bump, lookupCount, hne]
  | cons kv rest ih =>
    cases kv with
    | mk k₁ v =>
      unfold bump
      by_cases h : k₁ = k
      · rw [if_pos h]
        have h₂ : ¬ k₁ = k₂ := by
          rw [h]
          exact hne
        simp [lookupCount, h₂]
      · rw [if_neg h]
        by_cases h₂ : k₁ = k₂
        · simp [lookupCount, h₂]
        · simp [lookupCount, h₂, ih]

theorem addCollabStat_lookup (st : String → SponsorStats) (id pty x k : String) :
    lookupCount (addCollabStat st id pty x).party_collaborations k
      = lookupCount (st x).party_collaborations k
        + (if x = id then (if pty = k then 1 else 0) else 0) := by
  unfold addCollabStat
  by_cases h : x = id
  · rw [if_pos h, if_pos h, h]
    by_cases hk : pty = k
    · rw [if_pos hk, ← hk, bump_lookup_self]
    · rw [if_neg hk, bump_lookup_other _ hk]
      omega
  · rw [if_neg h, if_neg h]
    omega

theorem stats_foldl_lookup (legislators : List LegislatorNode)
    (collaborations : List Collaboration) (st : String → SponsorStats) (x k : String) :
    lookupCount ((collaborations.foldl
        (fun st c =>
          addCollabStat (addCollabStat st c.source (party_lookup legislators c.target))
            c.target (party_lookup legislators c.source)) st) x).party_collaborations k
      = lookupCount (st x).party_collaborations k
        + collaborations.countP (fun c => decide (x = c.source)
            && decide (party_lookup legislators c.target = k))
        + collaborations.countP (fun c => decide (x = c.target)
            && decide (party_lookup legislators c.source = k)) := by
  induction collaborations generalizing st with
  | nil => simp
  | cons c cs ih =>
    rw [List.foldl_cons, ih, List.countP_cons, List.countP_cons,
      addCollabStat_lookup, addCollabStat_lookup]
    simp only [Bool.and_eq_true, decide_eq_true_eq, ite_and_one]
    omega

theorem party_lookup_default (legislators : List LegislatorNode) (id : String)
    (h : ∀ l ∈ legislators, l.id ≠ id) : party_lookup legislators id = "O" := by
  unfold party_lookup
  have hfind : legislators.reverse.find? (fun l => l.id == id) = none := by
    rw [List.find?_eq_none]
    intro l hl
    simp [h l (List.mem_reverse.mp hl)]
  rw [hfind]
  rfl

/-- C4 (amended): when every Collaboration record has distinct endpoints —
violated only through the self-pair defect — every legislator's
`total_collaborations` equals the number of records mentioning them; the
party buckets sum to `total_collaborations` unconditionally; each party
bucket of a legislator counts exactly the records in which that legislator
is one endpoint and the *other* endpoint's party is the bucket's key; and
an id with no row in the legislator list yields party `"O"`. -/
theorem C4_metric_consistency (legislators : List LegislatorNode)
    (collaborations : List Collaboration) (x : String) :
    ((∀ c ∈ collaborations, c.source ≠ c.target) →
      (calculate_sponsor_stats legislators collaborations x).total_collaborations
        = collaborations.countP (fun c => decide (c.source = x ∨ c.target = x)))
    ∧ sumCounts (calculate_sponsor_stats legislators collaborations x).party_collaborations
        = (calculate_sponsor_stats legislators collaborations x).total_collaborations
    ∧ (∀ k : String,
        lookupCount (calculate_sponsor_stats legislators collaborations
            x).party_collaborations k
          = collaborations.countP (fun c => decide (x = c.source)
              && decide (party_lookup legislators c.target = k))
            + collaborations.countP (fun c => decide (x = c.target)
                && decide (party_lookup legislators c.source = k)))
    ∧ (∀ id : String, (∀ l ∈ legislators, l.id ≠ id) →
        party_lookup legislators id = "O") := by
  refine ⟨?_, ?_, ?_, party_lookup_default legislators⟩
  · intro hdist
    unfold calculate_sponsor_stats
    rw [stats_foldl_total, countP_mention_split collaborations x hdist]
    simp [zeroStats]
  · unfold calculate_sponsor_stats
    rw [stats_foldl_total, stats_foldl_sum]
    simp [zeroStats, sumCounts]
  · intro k
    unfold calculate_sponsor_stats
    rw [stats_foldl_lookup]
    simp [zeroStats, lookupCount]

/-- C4 (amended) at the spec's end-to-end example: legislator A appears in
2 records, the party buckets sum to the total, and A's "R" bucket counts
exactly the records pairing A with the Republican cosponsor B. -/
theorem C4_witness :
    (calculate_sponsor_stats
        (create_legislator_nodes ([exLegA, exLegB].map cleanLegislator))
        (process_collaborations exSponsorsTwo exMergedTwo) "A").total_collaborations
      = (process_collaborations exSponsorsTwo exMergedTwo).countP
          (fun c => decide (c.source = "A" ∨ c.target = "A"))
    ∧ sumCounts (calculate_sponsor_stats
          (create_legislator_nodes ([exLegA, exLegB].map cleanLegislator))
          (process_collaborations exSponsorsTwo exMergedTwo) "A").party_collaborations
      = (calculate_sponsor_stats
          (create_legislator_nodes ([exLegA, exLegB].map cleanLegislator))
          (process_collaborations exSponsorsTwo exMergedTwo) "A").total_collaborations
    ∧ lookupCount (calculate_sponsor_stats
          (create_legislator_nodes ([exLegA, exLegB].map cleanLegislator))
          (process_collaborations exSponsorsTwo exMergedTwo) "A").party_collaborations "R"
      = (process_collaborations exSponsorsTwo exMergedTwo).countP
          (fun c => decide ("A" = c.source)
              && decide (party_lookup
                  (create_legislator_nodes ([exLegA, exLegB].map cleanLegislator))
                  c.target = "R"))
        + (process_collaborations exSponsorsTwo exMergedTwo).countP
            (fun c => decide ("A" = c.target)
                && decide (party_lookup
                    (create_legislator_nodes ([exLegA, exLegB].map cleanLegislator))
                    c.source = "R")) :=
  ⟨(C4_metric_consistency (create_legislator_nodes ([exLegA, exLegB].map cleanLegislator))
      (process_collaborations exSponsorsTwo exMergedTwo) "A").1 (by decide),
   (C4_metric_consistency (create_legislator_nodes ([exLegA, exLegB].map cleanLegislator))
      (process_collaborations exSponsorsTwo exMergedTwo) "A").2.1,
   (C4_metric_consistency (create_legislator_nodes ([exLegA, exLegB].map cleanLegislator))
      (process_collaborations exSponsorsTwo exMergedTwo) "A").2.2.1 "R"⟩

/-! ## C3: active-set closure -/

/-- C3 (amended): every legislator kept in the snapshot appears in at
least one Collaboration record; conversely an id appearing in a
Collaboration record appears in the snapshot's legislator list provided
the legislators source has a row for it (ids unknown to the legislators
source survive in records but produce no legislator entry). -/
theorem C3_active_set (bills : List BillRow) (legislators : List LegislatorRow)
    (bill_sponsors : List SponsorRow) (policies : List PolicyRow)
    (policy_links : List PolicyLinkRow) (target_congress : Int) :
    (∀ l ∈ (prepare_network_data bills legislators bill_sponsors policies policy_links
        target_congress).legislators,
      ∃ c ∈ (prepare_network_data bills legislators bill_sponsors policies policy_links
          target_congress).collaborations,
        l.id = c.source ∨ l.id = c.target)
    ∧ (∀ c ∈ (prepare_network_data bills legislators bill_sponsors policies policy_links
          target_congress).collaborations,
        ∀ x : String, (x = c.source ∨ x = c.target) →
        (∃ l₀ ∈ create_legislator_nodes (legislators.map cleanLegislator), l₀.id = x) →
        ∃ l ∈ (prepare_network_data bills legislators bill_sponsors policies policy_links
            target_congress).legislators, l.id = x) := by
  constructor
  · intro l hl
    simp only [prepare_network_data] at hl ⊢
    rw [List.mem_filter] at hl
    obtain ⟨hall, hact⟩ := hl
    rw [decide_eq_true_eq] at hact
    unfold active_legislators at hact
    rw [List.mem_flatMap] at hact
    obtain ⟨c, hc, hlc⟩ := hact
    simp only [List.mem_cons, List.not_mem_nil, or_false] at hlc
    exact ⟨c, hc, hlc⟩
  · intro c hc x hx hl₀
    obtain ⟨l₀, hl₀mem, hl₀id⟩ := hl₀
    simp only [prepare_network_data] at hc ⊢
    refine ⟨l₀, ?_, hl₀id⟩
    rw [List.mem_filter]
    refine ⟨hl₀mem, ?_⟩
    rw [decide_eq_true_eq]
    unfold active_legislators
    rw [List.mem_flatMap]
    refine ⟨c, hc, ?_⟩
    rw [hl₀id]
    rcases hx with h | h <;> simp [h]

/-! ## C8: policy default and histogram -/

theorem mem_insertBill {x b : BillRow} {l : List BillRow} :
    x ∈ insertBill b l ↔ x = b ∨ x ∈ l := by
  induction l with
  | nil => simp [insertBill]
  | cons y ys ih =>
    unfold insertBill
    by_cases h : billBefore b y = true
    · rw [if_pos h]
      simp [List.mem_cons]
    · rw [if_neg h]
      simp only [List.mem_cons, ih]
      tauto

theorem mem_sortBills {x : BillRow} {l : List BillRow} :
    x ∈ sortBills l ↔ x ∈ l := by
  induction l with
  | nil => exact Iff.rfl
  | cons b bs ih =>
    unfold sortBills
    rw [mem_insertBill]
    simp [ih, List.mem_cons]

theorem linkRowsFor_no_link {b : BillRow} {links : List PolicyLinkRow}
    (hfl : links.filter (fun l => l.bill_number == b.bill_number) = []) :
    linkRowsFor b links = [(b, none)] := by
  unfold linkRowsFor
  rw [hfl]

theorem mem_linkRowsFor_of_link {b : BillRow} {links : List PolicyLinkRow}
    {l : PolicyLinkRow} (hl : l ∈ links) (hlb : l.bill_number = b.bill_number) :
    (b, some l.policy_id) ∈ linkRowsFor b links := by
  have hmem : l ∈ links.filter (fun x => x.bill_number == b.bill_number) :=
    List.mem_filter.mpr ⟨hl, by simp [hlb]⟩
  unfold linkRowsFor
  cases hfl : links.filter (fun x => x.bill_number == b.bill_number) with
  | nil =>
    rw [hfl] at hmem
    cases hmem
  | cons m ms =>
    rw [hfl] at hmem
    exact List.mem_map.mpr ⟨l, hmem, rfl⟩

theorem linkRowsFor_nonempty (b : BillRow) (links : List PolicyLinkRow) :
    ∃ pid, (b, pid) ∈ linkRowsFor b links := by
  unfold linkRowsFor
  cases hfl : links.filter (fun x => x.bill_number == b.bill_number) with
  | nil => exact ⟨none, List.mem_singleton.mpr rfl⟩
  | cons m ms =>
    exact ⟨some m.policy_id, List.mem_map.mpr ⟨m, List.mem_cons_self m ms, rfl⟩⟩

theorem policyRowsFor_none (b : BillRow) (policies : List PolicyRow) :
    policyRowsFor (b, none) policies = [mergedRow (b, none) none] := rfl

theorem policyRowsFor_some (b : BillRow) (pid : String) (policies : List PolicyRow) :
    policyRowsFor (b, some pid) policies = policyMatches (b, some pid) pid policies := rfl

theorem policyMatches_no_policy {bp : BillRow × Option String}
    {policies : List PolicyRow} {pid : String}
    (hfp : policies.filter (fun q => q.policy_id == pid) = []) :
    policyMatches bp pid policies = [mergedRow bp none] := by
  unfold policyMatches
  rw [hfp]

theorem policyMatches_nonempty (bp : BillRow × Option String) (pid : String)
    (policies : List PolicyRow) :
    ∃ nm, mergedRow bp nm ∈ policyMatches bp pid policies := by
  unfold policyMatches
  cases hfp : policies.filter (fun q => q.policy_id == pid) with
  | nil => exact ⟨none, List.mem_singleton.mpr rfl⟩
  | cons q qs =>
    exact ⟨q.name, List.mem_map.mpr ⟨q, List.mem_cons_self q qs, rfl⟩⟩

theorem bump_keys {m : List (String × Nat)} {k : String} {kv : String × Nat}
    (h : kv ∈ bump m k) : kv.1 = k ∨ ∃ kv₀ ∈ m, kv.1 = kv₀.1 := by
  induction m with
  | nil =>
    simp only [bump, List.mem_singleton] at h
    rw [h]
    exact Or.inl rfl
  | cons kv₁ rest ih =>
    cases kv₁ with
    | mk k₁ v =>
      unfold bump at h
      by_cases hk : k₁ = k
      · rw [if_pos hk] at h
        rcases List.mem_cons.mp h with h | h
        · exact Or.inr ⟨(k₁, v), List.mem_cons_self _ _, by rw [h]⟩
        · exact Or.inr ⟨kv, List.mem_cons_of_mem _ h, rfl⟩
      · rw [if_neg hk] at h
        rcases List.mem_cons.mp h with h | h
        · exact Or.inr ⟨(k₁, v), List.mem_cons_self _ _, by rw [h]⟩
        · rcases ih h with h₁ | ⟨kv₀, hkv₀, he⟩
          · exact Or.inl h₁
          · exact Or.inr ⟨kv₀, List.mem_cons_of_mem _ hkv₀, he⟩

theorem policy_counts_keys (bills : List BillRecord) :
    ∀ kv ∈ policy_counts bills, kv.1 ≠ "Uncategorized" := by
  unfold policy_counts
  suffices h : ∀ acc : List (String × Nat), (∀ kv ∈ acc, kv.1 ≠ "Uncategorized") →
      ∀ kv ∈ bills.foldl
        (fun acc b =>
          if b.policy_name ≠ "Uncategorized" then bump acc b.policy_name else acc) acc,
        kv.1 ≠ "Uncategorized" by
    exact h [] (by simp)
  induction bills with
  | nil =>
    intro acc hacc kv hkv
    exact hacc kv hkv
  | cons b bs ih =>
    intro acc hacc kv hkv
    rw [List.foldl_cons] at hkv
    refine ih _ ?_ kv hkv
    intro kv₁ hkv₁
    by_cases hb : b.policy_name ≠ "Uncategorized"
    · rw [if_pos hb] at hkv₁
      rcases bump_keys hkv₁ with h | ⟨kv₀, h₀, he⟩
      · rw [h]
        exact hb
      · rw [he]
        exact hacc kv₀ h₀
    · rw [if_neg hb] at hkv₁
      exact hacc kv₁ hkv₁

/-- C8: every qualifying bill survives the two left-joins; with no
matching policy link it survives with a null policy id and projects with
policy_name "Uncategorized"; with a link whose policy id matches no
policy row it projects with that policy id and policy_name
"Uncategorized"; and the policy histogram never carries an
"Uncategorized" key. -/
theorem C8_policy_default (bills : List BillRow) (links : List PolicyLinkRow)
    (policies : List PolicyRow) (target_congress : Int) :
    (∀ b ∈ filterCongress target_congress bills,
      ∃ r ∈ process_bills (bills_with_policies target_congress bills links policies),
        r.bill_number = b.bill_number)
    ∧ (∀ b ∈ filterCongress target_congress bills,
        links.filter (fun l => l.bill_number == b.bill_number) = [] →
        ∃ r ∈ process_bills (bills_with_policies target_congress bills links policies),
          r.bill_number = b.bill_number ∧ r.policy_id = none
            ∧ r.policy_name = "Uncategorized")
    ∧ (∀ b ∈ filterCongress target_congress bills, ∀ l ∈ links,
        l.bill_number = b.bill_number →
        policies.filter (fun q => q.policy_id == l.policy_id) = [] →
        ∃ r ∈ process_bills (bills_with_policies target_congress bills links policies),
          r.bill_number = b.bill_number ∧ r.policy_id = some l.policy_id
            ∧ r.policy_name = "Uncategorized")
    ∧ (∀ billRecords : List BillRecord, ∀ kv ∈ policy_counts billRecords,
        kv.1 ≠ "Uncategorized") := by
  refine ⟨?_, ?_, ?_, fun billRecords => policy_counts_keys billRecords⟩
  · intro b hb
    obtain ⟨pid, hbp⟩ := linkRowsFor_nonempty b links
    have hm : ∃ nm, mergedRow (b, pid) nm ∈ policyRowsFor (b, pid) policies := by
      cases pid with
      | none =>
        refine ⟨none, ?_⟩
        rw [policyRowsFor_none]
        exact List.mem_singleton.mpr rfl
      | some p =>
        rw [policyRowsFor_some]
        exact policyMatches_nonempty _ p policies
    obtain ⟨nm, hm⟩ := hm
    have hmem1 : (b, pid) ∈ mergeBillsPolicyLinks
        (sortBills (filterCongress target_congress bills)) links :=
      List.mem_flatMap.mpr ⟨b, mem_sortBills.mpr hb, hbp⟩
    have hmem2 : mergedRow (b, pid) nm
        ∈ bills_with_policies target_congress bills links policies :=
      List.mem_flatMap.mpr ⟨(b, pid), hmem1, hm⟩
    exact ⟨_, List.mem_map.mpr ⟨mergedRow (b, pid) nm, hmem2, rfl⟩, rfl⟩
  · intro b hb hfl
    have hbp : (b, (none : Option String)) ∈ linkRowsFor b links := by
      rw [linkRowsFor_no_link hfl]
      exact List.mem_singleton.mpr rfl
    have hmem1 : (b, (none : Option String)) ∈ mergeBillsPolicyLinks
        (sortBills (filterCongress target_congress bills)) links :=
      List.mem_flatMap.mpr ⟨b, mem_sortBills.mpr hb, hbp⟩
    have hm : mergedRow (b, none) none ∈ policyRowsFor (b, none) policies := by
      rw [policyRowsFor_none]
      exact List.mem_singleton.mpr rfl
    have hmem2 : mergedRow (b, none) none
        ∈ bills_with_policies target_congress bills links policies :=
      List.mem_flatMap.mpr ⟨(b, none), hmem1, hm⟩
    exact ⟨_, List.mem_map.mpr ⟨mergedRow (b, none) none, hmem2, rfl⟩, rfl, rfl, rfl⟩
  · intro b hb l hl hlb hfp
    have hbp : (b, some l.policy_id) ∈ linkRowsFor b links :=
      mem_linkRowsFor_of_link hl hlb
    have hmem1 : (b, some l.policy_id) ∈ mergeBillsPolicyLinks
        (sortBills (filterCongress target_congress bills)) links :=
      List.mem_flatMap.mpr ⟨b, mem_sortBills.mpr hb, hbp⟩
    have hm : mergedRow (b, some l.policy_id) none
        ∈ policyRowsFor (b, some l.policy_id) policies := by
      rw [policyRowsFor_some, policyMatches_no_policy hfp]
      exact List.mem_singleton.mpr rfl
    have hmem2 : mergedRow (b, some l.policy_id) none
        ∈ bills_with_policies target_congress bills links policies :=
      List.mem_flatMap.mpr ⟨(b, some l.policy_id), hmem1, hm⟩
    exact ⟨_, List.mem_map.mpr ⟨mergedRow (b, some l.policy_id) none, hmem2, rfl⟩,
      rfl, rfl, rfl⟩
